import Mathlib

/-!
Verification of the debt-collection case-management models.

Shallow embedding of the Mongoose schemas and their instance methods,
virtuals and pre-save middleware (DCA model and Case model).

Conventions of the embedding:
* JS numbers holding money amounts or rates are modelled as rationals.
* JS integer counters (case load, capacity) are modelled as integers,
  so that the lower bound 0 is a real proof obligation.
* Timestamps are integers counting milliseconds since the epoch;
  JS `Math.floor(x / d)` on a millisecond difference with a positive
  divisor is integer floor division, which for a positive divisor is
  Lean's `Int` division.
* Mongoose `document.save()` is modelled as the composition of the
  deterministic pre-save middleware functions, in registration order.
  The case-number generation hook touches only newly created documents
  (it queries the collection counter) and is omitted: every modelled
  operation acts on an already-persisted document.
* A method that throws is modelled with `Except String`, the message
  being the thrown error's message.
-/

/-- DCA `status` enum: ACTIVE, INACTIVE, SUSPENDED, TERMINATED, ONBOARDING. -/
inductive DCAStatus
  | ACTIVE | INACTIVE | SUSPENDED | TERMINATED | ONBOARDING
deriving DecidableEq, Repr

/-- DCA `contract.status` enum: ACTIVE, INACTIVE, SUSPENDED, TERMINATED, PENDING. -/
inductive ContractStatus
  | ACTIVE | INACTIVE | SUSPENDED | TERMINATED | PENDING
deriving DecidableEq, Repr

/-- The `capacity` subdocument of the DCA schema. -/
structure Capacity where
  maxConcurrentCases : Int
  currentCaseLoad : Int
deriving DecidableEq, Repr

/-- The `flags` subdocument of the DCA schema. -/
structure DCAFlags where
  isPreferred : Bool
  isBlacklisted : Bool
  requiresApproval : Bool
  hasActiveIssues : Bool
deriving DecidableEq, Repr

/-- The `contract` subdocument of the DCA schema (the fields the methods read). -/
structure Contract where
  status : ContractStatus
deriving DecidableEq, Repr

/-- One entry of `performance.monthlyMetrics`; only `month` is required. -/
structure MonthlyMetric where
  month : Int
  casesHandled : Option Rat
  amountRecovered : Option Rat
  recoveryRate : Option Rat
  slaCompliance : Option Rat
  customerSatisfaction : Option Rat
deriving DecidableEq, Repr

/-- The `performance` subdocument of the DCA schema (the fields the methods touch). -/
structure Performance where
  monthlyMetrics : List MonthlyMetric
deriving DecidableEq, Repr

/-- The DCA aggregate (the fields read or written by its methods,
virtuals and capacity middleware). -/
structure DCA where
  registrationNumber : String
  status : DCAStatus
  contract : Contract
  flags : DCAFlags
  capacity : Capacity
  performance : Performance
deriving DecidableEq, Repr

namespace DCA

/-- Virtual `availableCapacity`:
`Math.max(0, maxConcurrentCases - currentCaseLoad)`. -/
def availableCapacity (d : DCA) : Int :=
  max 0 (d.capacity.maxConcurrentCases - d.capacity.currentCaseLoad)

/-- Pre-save middleware: clamp `currentCaseLoad` at `maxConcurrentCases`. -/
def preSave (d : DCA) : DCA :=
  if d.capacity.currentCaseLoad > d.capacity.maxConcurrentCases then
    { d with capacity := { d.capacity with
        currentCaseLoad := d.capacity.maxConcurrentCases } }
  else d

/-- Model of `document.save()` on a DCA: run the capacity-clamp middleware.
(The compliance-status middleware fires only when `licensing.licenses`
was modified; none of the modelled methods modifies it.) -/
def save (d : DCA) : DCA := d.preSave

/-- Instance method `isAvailable(requiredCapacity = 1)`. -/
def isAvailable (d : DCA) (requiredCapacity : Int) : Bool :=
  decide (d.status = DCAStatus.ACTIVE) &&
  decide (d.contract.status = ContractStatus.ACTIVE) &&
  !d.flags.isBlacklisted &&
  decide (requiredCapacity ≤ d.availableCapacity)

/-- Instance method `assignCase()`: if `availableCapacity > 0`, increment
the load and save; otherwise throw `No available capacity`. -/
def assignCase (d : DCA) : Except String DCA :=
  if d.availableCapacity > 0 then
    Except.ok ({ d with capacity := { d.capacity with
        currentCaseLoad := d.capacity.currentCaseLoad + 1 } }.save)
  else
    Except.error "No available capacity"

/-- Instance method `releaseCase()`: decrement the load when it is
positive, else leave it; save either way. -/
def releaseCase (d : DCA) : DCA :=
  (if d.capacity.currentCaseLoad > 0 then
    { d with capacity := { d.capacity with
        currentCaseLoad := d.capacity.currentCaseLoad - 1 } }
  else d).save

/-- Instance method `addMonthlyMetrics(monthlyData)`: push, then if the
list exceeds 24 entries keep `slice(-24)` (the last 24); save. -/
def addMonthlyMetrics (d : DCA) (monthlyData : MonthlyMetric) : DCA :=
  let ms := d.performance.monthlyMetrics ++ [monthlyData]
  let ms := if ms.length > 24 then ms.drop (ms.length - 24) else ms
  ({ d with performance := { monthlyMetrics := ms } }).save

end DCA

/-- Case `status` enum. -/
inductive CaseStatus
  | NEW | ASSIGNED | IN_PROGRESS | CONTACTED | NEGOTIATING
  | PAYMENT_PLAN | RESOLVED | CLOSED | ESCALATED | LEGAL
deriving DecidableEq, Repr

/-- The `aging.category` enum. -/
inductive AgingCategory
  | FRESH | LOW | MEDIUM | HIGH | CRITICAL
deriving DecidableEq, Repr

/-- Payment `status` enum. -/
inductive PaymentStatus
  | PENDING | COMPLETED | FAILED | REFUNDED
deriving DecidableEq, Repr

/-- One entry of `payments[]` (the fields the virtuals read). -/
structure Payment where
  amount : Rat
  paymentDate : Int
  status : PaymentStatus
deriving DecidableEq, Repr

/-- Communication `type` enum. -/
inductive CommType
  | EMAIL | PHONE | SMS | LETTER | MEETING | SYSTEM
deriving DecidableEq, Repr

/-- Communication `direction` enum. -/
inductive CommDirection
  | INBOUND | OUTBOUND
deriving DecidableEq, Repr

/-- One entry of `communications[]` (the fields given by the caller;
the methods never read the entry back). -/
structure Communication where
  ctype : CommType
  direction : CommDirection
  subject : Option String
  content : Option String
  createdAt : Int
deriving DecidableEq, Repr

/-- One entry of `escalations[]` (the required fields). -/
structure Escalation where
  level : Int
  reason : String
  escalatedAt : Int
deriving DecidableEq, Repr

/-- The `debt` subdocument of the case schema. -/
structure Debt where
  originalAmount : Rat
  currentAmount : Rat
  currency : String
  dueDate : Option Int
deriving DecidableEq, Repr

/-- The `sla` subdocument: response/resolution/escalation times in hours. -/
structure SLA where
  responseTime : Int
  resolutionTime : Int
  escalationTime : Int
deriving DecidableEq, Repr

/-- The `dates` subdocument of the case schema. -/
structure CaseDates where
  firstContact : Option Int
  lastContact : Option Int
  expectedResolution : Option Int
  actualResolution : Option Int
  escalationDate : Option Int
deriving DecidableEq, Repr

/-- The `aging` subdocument of the case schema. -/
structure Aging where
  days : Int
  category : AgingCategory
deriving DecidableEq, Repr

/-- The Case aggregate (the fields read or written by its virtuals,
instance methods and pre-save middleware; customer data, predictions,
documents and notes are carried unchanged by every modelled operation
and are omitted). -/
structure Case where
  caseNumber : String
  debt : Debt
  status : CaseStatus
  assignedDCA : Option String
  sla : SLA
  dates : CaseDates
  aging : Aging
  payments : List Payment
  communications : List Communication
  escalations : List Escalation
deriving DecidableEq, Repr

namespace Case

/-- Virtual `totalPaid`: sum of the amounts of COMPLETED payments
(`filter` then `reduce((total, p) => total + p.amount, 0)`). -/
def totalPaid (c : Case) : Rat :=
  (c.payments.filter fun p => p.status = PaymentStatus.COMPLETED).foldl
    (fun total p => total + p.amount) 0

/-- Virtual `remainingBalance`: `Math.max(0, currentAmount - totalPaid)`. -/
def remainingBalance (c : Case) : Rat :=
  max 0 (c.debt.currentAmount - c.totalPaid)

/-- Virtual `recoveryRate`: 0 when `originalAmount` is 0, otherwise
`(totalPaid / originalAmount) * 100`. -/
def recoveryRate (c : Case) : Rat :=
  if c.debt.originalAmount = 0 then 0
  else (c.totalPaid / c.debt.originalAmount) * 100

/-- Milliseconds per day: `1000 * 60 * 60 * 24`. -/
def msPerDay : Int := 1000 * 60 * 60 * 24

/-- Virtual `overdueDays` at wall-clock time `now`: 0 when there is no
due date or it lies in the future, else `Math.floor((now - due) / day)`
(the operand is nonnegative there, so `Int` division is that floor). -/
def overdueDays (now : Int) (c : Case) : Int :=
  match c.debt.dueDate with
  | none => 0
  | some dueDate => if dueDate > now then 0 else (now - dueDate) / msPerDay

/-- Pre-save middleware updating `aging`: when a due date exists, set
`aging.days` from `overdueDays` and bucket `aging.category` by the
fixed thresholds 0 / 30 / 60 / 90. -/
def agingHook (now : Int) (c : Case) : Case :=
  match c.debt.dueDate with
  | none => c
  | some _ =>
    let days := c.overdueDays now
    let category :=
      if days ≤ 0 then AgingCategory.FRESH
      else if days ≤ 30 then AgingCategory.LOW
      else if days ≤ 60 then AgingCategory.MEDIUM
      else if days ≤ 90 then AgingCategory.HIGH
      else AgingCategory.CRITICAL
    { c with aging := { days := days, category := category } }

/-- Pre-save middleware updating `debt.currentAmount`: only when the
payments list is nonempty, set it to
`Math.max(0, originalAmount - totalPaid)`. -/
def currentAmountHook (c : Case) : Case :=
  if c.payments.length > 0 then
    { c with debt := { c.debt with
        currentAmount := max 0 (c.debt.originalAmount - c.totalPaid) } }
  else c

/-- Model of `document.save()` on a case at time `now`: the pre-save middleware
in registration order (aging update, then current-amount update; the
case-number hook concerns only new documents and is omitted). -/
def save (now : Int) (c : Case) : Case :=
  currentAmountHook (agingHook now c)

/-- Instance method `addCommunication(communication)`: push, set
`dates.lastContact` to now, set `dates.firstContact` to now only when
it is unset, then save. -/
def addCommunication (now : Int) (c : Case) (communication : Communication) :
    Case :=
  ({ c with
      communications := c.communications ++ [communication],
      dates := { c.dates with
        lastContact := some now,
        firstContact := match c.dates.firstContact with
          | none => some now
          | some t => some t } }).save now

/-- Instance method `addPayment(payment)`: push, then save. -/
def addPayment (now : Int) (c : Case) (payment : Payment) : Case :=
  ({ c with payments := c.payments ++ [payment] }).save now

/-- Instance method `escalate(escalation)`: push the escalation record,
set `status` to ESCALATED and `dates.escalationDate` to now, then save.
There is no check of the current status. -/
def escalate (now : Int) (c : Case) (escalation : Escalation) : Case :=
  ({ c with
      escalations := c.escalations ++ [escalation],
      status := CaseStatus.ESCALATED,
      dates := { c.dates with escalationDate := some now } }).save now

end Case

/-- A concrete active DCA with capacity 5 and load 3. -/
def dca3 : DCA :=
  { registrationNumber := "DCA-0001"
    status := DCAStatus.ACTIVE
    contract := { status := ContractStatus.ACTIVE }
    flags := { isPreferred := false, isBlacklisted := false,
               requiresApproval := true, hasActiveIssues := false }
    capacity := { maxConcurrentCases := 5, currentCaseLoad := 3 }
    performance := { monthlyMetrics := [] } }

/-- A concrete active DCA with capacity 4 and load 0, for the release
side of the round trip. -/
def dca4 : DCA :=
  { registrationNumber := "DCA-0002"
    status := DCAStatus.ACTIVE
    contract := { status := ContractStatus.ACTIVE }
    flags := { isPreferred := false, isBlacklisted := false,
               requiresApproval := true, hasActiveIssues := false }
    capacity := { maxConcurrentCases := 4, currentCaseLoad := 0 }
    performance := { monthlyMetrics := [] } }

/-- A concrete active DCA with capacity 10, load 6, not blacklisted. -/
def dca5 : DCA :=
  { registrationNumber := "DCA-0003"
    status := DCAStatus.ACTIVE
    contract := { status := ContractStatus.ACTIVE }
    flags := { isPreferred := true, isBlacklisted := false,
               requiresApproval := false, hasActiveIssues := false }
    capacity := { maxConcurrentCases := 10, currentCaseLoad := 6 }
    performance := { monthlyMetrics := [] } }

/-- A concrete case with no payments whose `currentAmount` (500)
differs from its `originalAmount` (1000). -/
def case1 : Case :=
  { caseNumber := "CASE-2025-000001"
    debt := { originalAmount := 1000, currentAmount := 500,
              currency := "USD", dueDate := none }
    status := CaseStatus.NEW
    assignedDCA := none
    sla := { responseTime := 24, resolutionTime := 72, escalationTime := 48 }
    dates := { firstContact := none, lastContact := none,
               expectedResolution := none, actualResolution := none,
               escalationDate := none }
    aging := { days := 0, category := AgingCategory.FRESH }
    payments := []
    communications := []
    escalations := [] }

/-- A concrete case holding one COMPLETED payment of 300 against an
original amount of 1000. -/
def case1p : Case :=
  { caseNumber := "CASE-2025-000002"
    debt := { originalAmount := 1000, currentAmount := 1000,
              currency := "USD", dueDate := none }
    status := CaseStatus.IN_PROGRESS
    assignedDCA := some "DCA-0001"
    sla := { responseTime := 24, resolutionTime := 72, escalationTime := 48 }
    dates := { firstContact := none, lastContact := none,
               expectedResolution := none, actualResolution := none,
               escalationDate := none }
    aging := { days := 0, category := AgingCategory.FRESH }
    payments := [{ amount := 300, paymentDate := 0,
                   status := PaymentStatus.COMPLETED }]
    communications := []
    escalations := [] }

/-- A concrete case in the terminal CLOSED status. -/
def case2 : Case :=
  { caseNumber := "CASE-2025-000003"
    debt := { originalAmount := 800, currentAmount := 0,
              currency := "USD", dueDate := none }
    status := CaseStatus.CLOSED
    assignedDCA := none
    sla := { responseTime := 24, resolutionTime := 72, escalationTime := 48 }
    dates := { firstContact := some 0, lastContact := some 0,
               expectedResolution := none, actualResolution := some 0,
               escalationDate := none }
    aging := { days := 0, category := AgingCategory.FRESH }
    payments := []
    communications := []
    escalations := [] }

/-- A concrete escalation record. -/
def esc2 : Escalation :=
  { level := 1, reason := "SLA_BREACH", escalatedAt := 0 }

/-- A concrete case due at epoch time 0. -/
def case6 : Case :=
  { caseNumber := "CASE-2025-000004"
    debt := { originalAmount := 1200, currentAmount := 1200,
              currency := "USD", dueDate := some 0 }
    status := CaseStatus.ASSIGNED
    assignedDCA := some "DCA-0002"
    sla := { responseTime := 24, resolutionTime := 72, escalationTime := 48 }
    dates := { firstContact := none, lastContact := none,
               expectedResolution := none, actualResolution := none,
               escalationDate := none }
    aging := { days := 0, category := AgingCategory.FRESH }
    payments := []
    communications := []
    escalations := [] }

/-- The spec scenario case: original amount 1000 and a single COMPLETED
payment of 400. -/
def case7 : Case :=
  { caseNumber := "CASE-2025-000005"
    debt := { originalAmount := 1000, currentAmount := 1000,
              currency := "USD", dueDate := none }
    status := CaseStatus.CONTACTED
    assignedDCA := some "DCA-0003"
    sla := { responseTime := 24, resolutionTime := 72, escalationTime := 48 }
    dates := { firstContact := none, lastContact := none,
               expectedResolution := none, actualResolution := none,
               escalationDate := none }
    aging := { days := 0, category := AgingCategory.FRESH }
    payments := [{ amount := 400, paymentDate := 0,
                   status := PaymentStatus.COMPLETED }]
    communications := []
    escalations := [] }

/-- A concrete case with a stale `aging` block: due 100 days before the
time at which it is next touched. -/
def case10 : Case :=
  { caseNumber := "CASE-2025-000006"
    debt := { originalAmount := 900, currentAmount := 900,
              currency := "USD", dueDate := some 0 }
    status := CaseStatus.ASSIGNED
    assignedDCA := some "DCA-0001"
    sla := { responseTime := 24, resolutionTime := 72, escalationTime := 48 }
    dates := { firstContact := none, lastContact := none,
               expectedResolution := none, actualResolution := none,
               escalationDate := none }
    aging := { days := 0, category := AgingCategory.FRESH }
    payments := []
    communications := []
    escalations := [] }

/-- A concrete communication record. -/
def comm10 : Communication :=
  { ctype := CommType.PHONE, direction := CommDirection.OUTBOUND,
    subject := none, content := none, createdAt := 8640000000 }

namespace DCA

/-- Unfolding lemma: `availableCapacity` is the clamped difference. -/
theorem availableCapacity_def (d : DCA) :
    d.availableCapacity =
      max 0 (d.capacity.maxConcurrentCases - d.capacity.currentCaseLoad) := rfl

/-- With a free slot, `assignCase` succeeds and the clamp middleware
does not fire. -/
theorem assignCase_ok (d : DCA) (h : 1 ≤ d.availableCapacity) :
    d.assignCase = Except.ok { d with capacity := { d.capacity with
        currentCaseLoad := d.capacity.currentCaseLoad + 1 } } := by
  rw [availableCapacity_def] at h
  rw [assignCase, availableCapacity_def, if_pos (by omega)]
  simp only [save, preSave]
  rw [if_neg]
  simpa using by omega

/-- With no free slot, `assignCase` throws. -/
theorem assignCase_err (d : DCA) (h : d.availableCapacity < 1) :
    d.assignCase = Except.error "No available capacity" := by
  rw [availableCapacity_def] at h
  rw [assignCase, if_neg]
  rw [availableCapacity_def]
  omega

/-- With positive load whose decrement stays within the bound,
`releaseCase` decrements the load. -/
theorem releaseCase_pos (d : DCA) (h : 0 < d.capacity.currentCaseLoad)
    (hle : d.capacity.currentCaseLoad - 1 ≤ d.capacity.maxConcurrentCases) :
    d.releaseCase = { d with capacity := { d.capacity with
        currentCaseLoad := d.capacity.currentCaseLoad - 1 } } := by
  rw [releaseCase, if_pos h]
  simp only [save, preSave]
  rw [if_neg]
  simpa using by omega

/-- With nonpositive load and nonnegative bound, `releaseCase` is the
identity. -/
theorem releaseCase_nonpos (d : DCA) (h : ¬ 0 < d.capacity.currentCaseLoad)
    (hm : d.capacity.currentCaseLoad ≤ d.capacity.maxConcurrentCases) :
    d.releaseCase = d := by
  rw [releaseCase, if_neg h]
  simp only [save, preSave]
  rw [if_neg]
  omega

end DCA

/-- C3: `assignCase` fails with the capacity error exactly when
`availableCapacity < 1` (leaving no mutated DCA); otherwise it returns
the DCA with `currentCaseLoad` incremented by 1, and the increment
preserves `0 ≤ currentCaseLoad ≤ maxConcurrentCases`. -/
theorem C3_assignCase_spec (d : DCA) :
    (d.availableCapacity < 1 →
      d.assignCase = Except.error "No available capacity") ∧
    (1 ≤ d.availableCapacity →
      d.assignCase = Except.ok { d with capacity := { d.capacity with
          currentCaseLoad := d.capacity.currentCaseLoad + 1 } } ∧
      (0 ≤ d.capacity.currentCaseLoad →
        0 ≤ d.capacity.currentCaseLoad + 1 ∧
        d.capacity.currentCaseLoad + 1 ≤ d.capacity.maxConcurrentCases)) := by
  refine ⟨DCA.assignCase_err d, fun h => ⟨DCA.assignCase_ok d h, fun h0 => ?_⟩⟩
  rw [DCA.availableCapacity_def] at h
  omega

/-- C3 witness: at `dca3` both hypotheses hold and the conclusion
evaluates. -/
theorem C3_witness :
    1 ≤ dca3.availableCapacity ∧ 0 ≤ dca3.capacity.currentCaseLoad ∧
    (dca3.assignCase = Except.ok { dca3 with capacity := { dca3.capacity with
        currentCaseLoad := dca3.capacity.currentCaseLoad + 1 } } ∧
      0 ≤ dca3.capacity.currentCaseLoad + 1 ∧
      dca3.capacity.currentCaseLoad + 1 ≤ dca3.capacity.maxConcurrentCases) := by
  have h := (C3_assignCase_spec dca3).2 (by decide)
  exact ⟨by decide, by decide, h.1, h.2 (by decide)⟩

/-- C4: on a DCA with a free slot and nonnegative load, `assignCase`
followed by `releaseCase` restores the DCA exactly (hence its
`currentCaseLoad` and `availableCapacity`); and `releaseCase` on a DCA
whose load is 0 (with nonnegative capacity bound) leaves the load 0. -/
theorem C4_reserve_release_round_trip (d e : DCA)
    (h1 : 1 ≤ d.availableCapacity) (h0 : 0 ≤ d.capacity.currentCaseLoad)
    (he : e.capacity.currentCaseLoad = 0)
    (hem : 0 ≤ e.capacity.maxConcurrentCases) :
    (∃ d1, d.assignCase = Except.ok d1 ∧ d1.releaseCase = d) ∧
    e.releaseCase.capacity.currentCaseLoad = 0 := by
  have havail := DCA.availableCapacity_def d
  constructor
  · refine ⟨_, DCA.assignCase_ok d h1, ?_⟩
    rw [DCA.releaseCase_pos _ (by simp; omega) (by simp; omega)]
    simp
  · rw [DCA.releaseCase_nonpos e (by omega) (by omega)]
    exact he

/-- C4 witness: the round trip and the floor-at-zero release, evaluated
at `dca4` (which has load 0 and also a free slot). -/
theorem C4_witness :
    1 ≤ dca4.availableCapacity ∧ 0 ≤ dca4.capacity.currentCaseLoad ∧
    dca4.capacity.currentCaseLoad = 0 ∧
    0 ≤ dca4.capacity.maxConcurrentCases ∧
    ((∃ d1, dca4.assignCase = Except.ok d1 ∧ d1.releaseCase = dca4) ∧
      dca4.releaseCase.capacity.currentCaseLoad = 0) :=
  ⟨by decide, by decide, by decide, by decide,
    C4_reserve_release_round_trip dca4 dca4 (by decide) (by decide)
      (by decide) (by decide)⟩

/-- C5: for `n ≥ 1`, `isAvailable n` holds iff the DCA is ACTIVE, its
contract is ACTIVE, it is not blacklisted and `availableCapacity ≥ n`;
`availableCapacity` is never negative, and equals
`maxConcurrentCases - currentCaseLoad` whenever the load respects the
bound. -/
theorem C5_isAvailable_iff (d : DCA) (n : Int) (_hn : 1 ≤ n) :
    (d.isAvailable n = true ↔
      d.status = DCAStatus.ACTIVE ∧
      d.contract.status = ContractStatus.ACTIVE ∧
      d.flags.isBlacklisted = false ∧
      n ≤ d.availableCapacity) ∧
    0 ≤ d.availableCapacity ∧
    (d.capacity.currentCaseLoad ≤ d.capacity.maxConcurrentCases →
      d.availableCapacity =
        d.capacity.maxConcurrentCases - d.capacity.currentCaseLoad) := by
  refine ⟨?_, le_max_left _ _, fun h => ?_⟩
  · simp only [DCA.isAvailable, Bool.and_eq_true, decide_eq_true_iff,
      Bool.not_eq_true']
    tauto
  · rw [DCA.availableCapacity_def]
    omega

/-- C5 witness: evaluated at `dca5` and `n = 4` (where `isAvailable`
holds with `availableCapacity = 4`). -/
theorem C5_witness :
    (1 : Int) ≤ 4 ∧
    ((dca5.isAvailable 4 = true ↔
      dca5.status = DCAStatus.ACTIVE ∧
      dca5.contract.status = ContractStatus.ACTIVE ∧
      dca5.flags.isBlacklisted = false ∧
      (4 : Int) ≤ dca5.availableCapacity) ∧
    0 ≤ dca5.availableCapacity ∧
    (dca5.capacity.currentCaseLoad ≤ dca5.capacity.maxConcurrentCases →
      dca5.availableCapacity =
        dca5.capacity.maxConcurrentCases - dca5.capacity.currentCaseLoad)) :=
  ⟨by decide, C5_isAvailable_iff dca5 4 (by decide)⟩

/-- C8: `addMonthlyMetrics` appends the entry at the end, evicting the
oldest entries first whenever the list would exceed 24 (the result is
the final segment of the appended list), its length is
`min (old length + 1) 24`, and it never exceeds 24. -/
theorem C8_addMonthlyMetrics_bounded (d : DCA) (m : MonthlyMetric) :
    (d.addMonthlyMetrics m).performance.monthlyMetrics =
      (d.performance.monthlyMetrics ++ [m]).drop
        (d.performance.monthlyMetrics.length + 1 - 24) ∧
    (d.addMonthlyMetrics m).performance.monthlyMetrics.length =
      min (d.performance.monthlyMetrics.length + 1) 24 ∧
    (d.addMonthlyMetrics m).performance.monthlyMetrics.length ≤ 24 := by
  have hlen : (d.performance.monthlyMetrics ++ [m]).length =
      d.performance.monthlyMetrics.length + 1 := by simp
  have hmain : (d.addMonthlyMetrics m).performance.monthlyMetrics =
      (d.performance.monthlyMetrics ++ [m]).drop
        (d.performance.monthlyMetrics.length + 1 - 24) := by
    simp only [DCA.addMonthlyMetrics, DCA.save, DCA.preSave, hlen]
    by_cases h : d.performance.monthlyMetrics.length + 1 > 24
    · rw [if_pos h]
      split <;> rfl
    · rw [if_neg h]
      rw [Nat.sub_eq_zero_of_le (by omega), List.drop_zero]
      split <;> rfl
  refine ⟨hmain, ?_, ?_⟩ <;> rw [hmain, List.length_drop, hlen] <;> omega

namespace Case

/-- Virtual `totalPaid` is the sum of the amounts of the COMPLETED payments. -/
theorem totalPaid_eq_sum (c : Case) :
    c.totalPaid = ((c.payments.filter fun q =>
      q.status = PaymentStatus.COMPLETED).map Payment.amount).sum := by
  rw [totalPaid, List.sum_eq_foldl, List.foldl_map]

/-- Virtual `totalPaid` depends only on the payments list. -/
theorem totalPaid_congr {c1 c2 : Case} (h : c1.payments = c2.payments) :
    c1.totalPaid = c2.totalPaid := by
  rw [totalPaid, totalPaid, h]

/-- The aging middleware touches only the `aging` block. -/
theorem agingHook_eq (now : Int) (c : Case) :
    agingHook now c = { c with aging := (agingHook now c).aging } := by
  unfold agingHook
  split <;> rfl

/-- The current-amount middleware touches only `debt.currentAmount`. -/
theorem currentAmountHook_eq (c : Case) :
    currentAmountHook c = { c with debt := { c.debt with
      currentAmount := (currentAmountHook c).debt.currentAmount } } := by
  unfold currentAmountHook
  split <;> rfl

/-- Saving leaves every field other than `aging` and
`debt.currentAmount` unchanged. -/
theorem save_frame (now : Int) (c : Case) :
    (c.save now).caseNumber = c.caseNumber ∧
    (c.save now).status = c.status ∧
    (c.save now).assignedDCA = c.assignedDCA ∧
    (c.save now).sla = c.sla ∧
    (c.save now).dates = c.dates ∧
    (c.save now).payments = c.payments ∧
    (c.save now).communications = c.communications ∧
    (c.save now).escalations = c.escalations ∧
    (c.save now).debt.originalAmount = c.debt.originalAmount ∧
    (c.save now).debt.currency = c.debt.currency ∧
    (c.save now).debt.dueDate = c.debt.dueDate := by
  rw [save, currentAmountHook_eq, agingHook_eq]
  simp

/-- Saving does not change `totalPaid`. -/
theorem save_totalPaid (now : Int) (c : Case) :
    (c.save now).totalPaid = c.totalPaid :=
  totalPaid_congr (save_frame now c).2.2.2.2.2.1

/-- The `aging` block after a save is the one the aging middleware
computed. -/
theorem save_aging (now : Int) (c : Case) :
    (c.save now).aging = (agingHook now c).aging := by
  rw [save, currentAmountHook_eq]

/-- On a case with at least one payment, saving sets
`debt.currentAmount` to the clamped difference. -/
theorem save_currentAmount (now : Int) (c : Case) (h : c.payments ≠ []) :
    (c.save now).debt.currentAmount =
      max 0 (c.debt.originalAmount - c.totalPaid) := by
  have hp : (agingHook now c).payments = c.payments := by
    rw [agingHook_eq]
  have hd : (agingHook now c).debt = c.debt := by
    rw [agingHook_eq]
  rw [save, currentAmountHook, if_pos]
  · simp [hd, totalPaid_congr hp]
  · rw [hp]
    exact List.length_pos.mpr h

/-- With a due date, `overdueDays` is the clamped floor of the elapsed
days: 0 when the due date lies in the future, the nonnegative quotient
otherwise. -/
theorem overdueDays_some (now : Int) (c : Case) (due : Int)
    (h : c.debt.dueDate = some due) :
    c.overdueDays now = max 0 ((now - due) / msPerDay) := by
  simp only [overdueDays, h]
  by_cases hlt : due > now
  · rw [if_pos hlt]
    have h1 : now - due < 0 := by omega
    have h2 : (now - due) / msPerDay < 0 :=
      Int.ediv_neg' h1 (by norm_num [msPerDay])
    omega
  · rw [if_neg hlt]
    have h1 : 0 ≤ now - due := by omega
    have h2 : 0 ≤ (now - due) / msPerDay :=
      Int.ediv_nonneg h1 (by norm_num [msPerDay])
    omega

/-- With a due date, the aging middleware writes `overdueDays` into
`aging.days` and buckets the category. -/
theorem agingHook_aging_some (now : Int) (c : Case) (due : Int)
    (h : c.debt.dueDate = some due) :
    (agingHook now c).aging =
      { days := c.overdueDays now,
        category :=
          if c.overdueDays now ≤ 0 then AgingCategory.FRESH
          else if c.overdueDays now ≤ 30 then AgingCategory.LOW
          else if c.overdueDays now ≤ 60 then AgingCategory.MEDIUM
          else if c.overdueDays now ≤ 90 then AgingCategory.HIGH
          else AgingCategory.CRITICAL } := by
  simp only [agingHook, h]

/-- Saving a case with no payments leaves `debt.currentAmount`
unchanged. -/
theorem save_currentAmount_empty (now : Int) (c : Case)
    (h : c.payments = []) :
    (c.save now).debt.currentAmount = c.debt.currentAmount := by
  have hp : (agingHook now c).payments = c.payments := by
    rw [agingHook_eq]
  have hd : (agingHook now c).debt = c.debt := by
    rw [agingHook_eq]
  rw [save, currentAmountHook, if_neg]
  · rw [hd]
  · rw [hp, h]
    simp

end Case

/-- C1 (amended): after a save of a case with at least one payment —
in particular after `addPayment` — `debt.currentAmount` equals
`max(0, originalAmount − Σ COMPLETED payment amounts)`; a save of a
case with no payments leaves `debt.currentAmount` unchanged. -/
theorem C1_currentAmount_after_save (now : Int) (c : Case) (p : Payment) :
    (c.payments ≠ [] →
      (c.save now).debt.currentAmount =
        max 0 (c.debt.originalAmount -
          ((c.payments.filter fun q =>
            q.status = PaymentStatus.COMPLETED).map Payment.amount).sum)) ∧
    (c.payments = [] →
      (c.save now).debt.currentAmount = c.debt.currentAmount) ∧
    (c.addPayment now p).debt.currentAmount =
      max 0 (c.debt.originalAmount -
        (((c.payments ++ [p]).filter fun q =>
          q.status = PaymentStatus.COMPLETED).map Payment.amount).sum) := by
  refine ⟨fun h => ?_, fun h => Case.save_currentAmount_empty now c h, ?_⟩
  · rw [← Case.totalPaid_eq_sum]
    exact Case.save_currentAmount now c h
  · rw [Case.addPayment]
    have h : ({ c with payments := c.payments ++ [p] } : Case).payments ≠ [] := by
      simp
    rw [Case.save_currentAmount now _ h, Case.totalPaid_eq_sum]

/-- C1 counterexample: `case1` has no payments, so saving leaves its
`currentAmount` at 500 although `max(0, originalAmount − Σ COMPLETED)`
is 1000: the invariant does not hold after this save. -/
theorem C1_counterexample :
    (case1.save 0).debt.currentAmount = 500 ∧
    max 0 (case1.debt.originalAmount -
      ((case1.payments.filter fun q =>
        q.status = PaymentStatus.COMPLETED).map Payment.amount).sum) = 1000 ∧
    (case1.save 0).debt.currentAmount ≠
      max 0 (case1.debt.originalAmount -
        ((case1.payments.filter fun q =>
          q.status = PaymentStatus.COMPLETED).map Payment.amount).sum) := by
  have h1 : (case1.save 0).debt.currentAmount = 500 := rfl
  have h2 : max 0 (case1.debt.originalAmount -
      ((case1.payments.filter fun q =>
        q.status = PaymentStatus.COMPLETED).map Payment.amount).sum) = 1000 := by
    norm_num [case1]
  refine ⟨h1, h2, ?_⟩
  rw [h1, h2]
  norm_num

/-- C1 witness: `case1p` has a payment, and the amended equation
evaluates on it. -/
theorem C1_witness :
    case1p.payments ≠ [] ∧
    (case1p.save 0).debt.currentAmount =
      max 0 (case1p.debt.originalAmount -
        ((case1p.payments.filter fun q =>
          q.status = PaymentStatus.COMPLETED).map Payment.amount).sum) :=
  ⟨by simp [case1p],
    (C1_currentAmount_after_save 0 case1p
      { amount := 0, paymentDate := 0, status := PaymentStatus.PENDING }).1
      (by simp [case1p])⟩

/-- C2 (amended): `escalate` enforces no transition rule. On every
case — whatever its current status, CLOSED included — it succeeds,
appends the escalation record, sets `status` to ESCALATED and
`dates.escalationDate` to now, and leaves the other contact dates
unchanged; no InvalidTransition error exists in the model. -/
theorem C2_escalate_unrestricted (now : Int) (c : Case) (e : Escalation) :
    (c.escalate now e).status = CaseStatus.ESCALATED ∧
    (c.escalate now e).escalations = c.escalations ++ [e] ∧
    (c.escalate now e).dates.escalationDate = some now ∧
    (c.escalate now e).dates.firstContact = c.dates.firstContact ∧
    (c.escalate now e).dates.lastContact = c.dates.lastContact := by
  simp only [Case.escalate]
  obtain ⟨h1, h2, h3, h4, h5, h6, h7, h8, h9, h10, h11⟩ := Case.save_frame now
    { c with escalations := c.escalations ++ [e],
             status := CaseStatus.ESCALATED,
             dates := { c.dates with escalationDate := some now } }
  refine ⟨?_, ?_, ?_, ?_, ?_⟩ <;> simp [h2, h5, h8]

/-- C2 counterexample: escalating the CLOSED `case2` succeeds and
moves its status out of CLOSED to ESCALATED, so the transition is not
rejected and the state is not left unchanged. -/
theorem C2_counterexample :
    case2.status = CaseStatus.CLOSED ∧
    (case2.escalate 0 esc2).status = CaseStatus.ESCALATED ∧
    (case2.escalate 0 esc2).status ≠ CaseStatus.CLOSED := by
  refine ⟨rfl, rfl, ?_⟩
  decide

/-- C6: after a save of a case with a due date, `aging.days` equals
`max(0, whole days elapsed since dueDate)` and `aging.category` is
bucketed by the fixed thresholds: ≤ 0 FRESH, 1–30 LOW, 31–60 MEDIUM,
61–90 HIGH, ≥ 91 CRITICAL (so 30 gives LOW, 31 MEDIUM, 90 HIGH and
91 CRITICAL). -/
theorem C6_aging_after_save (now : Int) (c : Case) (due : Int)
    (h : c.debt.dueDate = some due) :
    (c.save now).aging.days = max 0 ((now - due) / Case.msPerDay) ∧
    ((c.save now).aging.days ≤ 0 →
      (c.save now).aging.category = AgingCategory.FRESH) ∧
    (1 ≤ (c.save now).aging.days ∧ (c.save now).aging.days ≤ 30 →
      (c.save now).aging.category = AgingCategory.LOW) ∧
    (31 ≤ (c.save now).aging.days ∧ (c.save now).aging.days ≤ 60 →
      (c.save now).aging.category = AgingCategory.MEDIUM) ∧
    (61 ≤ (c.save now).aging.days ∧ (c.save now).aging.days ≤ 90 →
      (c.save now).aging.category = AgingCategory.HIGH) ∧
    (91 ≤ (c.save now).aging.days →
      (c.save now).aging.category = AgingCategory.CRITICAL) := by
  rw [Case.save_aging now c, Case.agingHook_aging_some now c due h]
  refine ⟨Case.overdueDays_some now c due h, ?_, ?_, ?_, ?_, ?_⟩ <;>
    intro hd <;> simp only [] at hd ⊢ <;>
    split_ifs <;> first | rfl | (exfalso; omega)

/-- C6 witness: `case6` is due at time 0; saved 31 days later its
aging is 31 days, category MEDIUM by the theorem's 31–60 bucket. -/
theorem C6_witness :
    case6.debt.dueDate = some 0 ∧
    ((case6.save 2678400000).aging.days =
        max 0 ((2678400000 - 0) / Case.msPerDay) ∧
      ((case6.save 2678400000).aging.days ≤ 0 →
        (case6.save 2678400000).aging.category = AgingCategory.FRESH) ∧
      (1 ≤ (case6.save 2678400000).aging.days ∧
          (case6.save 2678400000).aging.days ≤ 30 →
        (case6.save 2678400000).aging.category = AgingCategory.LOW) ∧
      (31 ≤ (case6.save 2678400000).aging.days ∧
          (case6.save 2678400000).aging.days ≤ 60 →
        (case6.save 2678400000).aging.category = AgingCategory.MEDIUM) ∧
      (61 ≤ (case6.save 2678400000).aging.days ∧
          (case6.save 2678400000).aging.days ≤ 90 →
        (case6.save 2678400000).aging.category = AgingCategory.HIGH) ∧
      (91 ≤ (case6.save 2678400000).aging.days →
        (case6.save 2678400000).aging.category = AgingCategory.CRITICAL)) :=
  ⟨rfl, C6_aging_after_save 2678400000 case6 0 rfl⟩

/-- C7: `recoveryRate` is 0 when `originalAmount` is 0 and
`totalPaid / originalAmount × 100` otherwise; on the spec scenario
(original 1000, one COMPLETED payment of 400) the saved case has
`currentAmount` 600 and `recoveryRate` 40. -/
theorem C7_recoveryRate_spec (c : Case) :
    (c.debt.originalAmount = 0 → c.recoveryRate = 0) ∧
    (c.debt.originalAmount ≠ 0 →
      c.recoveryRate = c.totalPaid / c.debt.originalAmount * 100) ∧
    (case7.save 0).debt.currentAmount = 600 ∧
    case7.recoveryRate = 40 := by
  refine ⟨fun h => by rw [Case.recoveryRate, if_pos h],
          fun h => by rw [Case.recoveryRate, if_neg h], ?_, ?_⟩
  · rw [Case.save_currentAmount 0 case7 (by simp [case7])]
    norm_num [case7, Case.totalPaid]
  · norm_num [Case.recoveryRate, Case.totalPaid, case7]

/-- C7 witness: `case7` has nonzero original amount, and the rate
formula evaluates on it (to 40). -/
theorem C7_witness :
    case7.debt.originalAmount ≠ 0 ∧
    case7.recoveryRate = case7.totalPaid / case7.debt.originalAmount * 100 :=
  ⟨by norm_num [case7],
    (C7_recoveryRate_spec case7).2.1 (by norm_num [case7])⟩

/-- C9: `remainingBalance` is `max(0, currentAmount − totalPaid)`, so
on a saved case with payments — where the hook already set
`currentAmount` to `max(0, originalAmount − totalPaid)` — the
COMPLETED payments are subtracted from the original amount twice. -/
theorem C9_remainingBalance_double_subtracts (now : Int) (c : Case) :
    c.remainingBalance = max 0 (c.debt.currentAmount - c.totalPaid) ∧
    (c.payments ≠ [] →
      (c.save now).remainingBalance =
        max 0 (max 0 (c.debt.originalAmount - c.totalPaid) - c.totalPaid)) := by
  refine ⟨rfl, fun h => ?_⟩
  rw [Case.remainingBalance, Case.save_currentAmount now c h,
    Case.save_totalPaid now c]

/-- C9 witness: on `case1p` (original 1000, one COMPLETED payment of
300) the saved remaining balance is `max(0, max(0, 1000 − 300) − 300)`,
i.e. 400, exhibiting the double subtraction. -/
theorem C9_witness :
    case1p.payments ≠ [] ∧
    ((case1p.save 0).remainingBalance =
      max 0 (max 0 (case1p.debt.originalAmount - case1p.totalPaid) -
        case1p.totalPaid)) ∧
    (case1p.save 0).remainingBalance = 400 := by
  have h : case1p.payments ≠ [] := by simp [case1p]
  have h2 := (C9_remainingBalance_double_subtracts 0 case1p).2 h
  refine ⟨h, h2, ?_⟩
  rw [h2]
  norm_num [case1p, Case.totalPaid]

/-- C10 (amended): `addCommunication` appends the communication, sets
`dates.lastContact` to now and sets `dates.firstContact` only when it
was unset; because the method ends in a save, the pre-save middleware
may additionally recompute `aging` and `debt.currentAmount`; every
other field (status, assignment, case number, sla, payments,
escalations, the remaining debt and date fields) is unchanged. -/
theorem C10_addCommunication_effects (now : Int) (c : Case)
    (m : Communication) :
    (c.addCommunication now m).communications = c.communications ++ [m] ∧
    (c.addCommunication now m).dates.lastContact = some now ∧
    (c.dates.firstContact = none →
      (c.addCommunication now m).dates.firstContact = some now) ∧
    (∀ t, c.dates.firstContact = some t →
      (c.addCommunication now m).dates.firstContact = some t) ∧
    (c.addCommunication now m).status = c.status ∧
    (c.addCommunication now m).assignedDCA = c.assignedDCA ∧
    (c.addCommunication now m).caseNumber = c.caseNumber ∧
    (c.addCommunication now m).sla = c.sla ∧
    (c.addCommunication now m).payments = c.payments ∧
    (c.addCommunication now m).escalations = c.escalations ∧
    (c.addCommunication now m).debt.originalAmount =
      c.debt.originalAmount ∧
    (c.addCommunication now m).debt.currency = c.debt.currency ∧
    (c.addCommunication now m).debt.dueDate = c.debt.dueDate ∧
    (c.addCommunication now m).dates.escalationDate =
      c.dates.escalationDate ∧
    (c.addCommunication now m).dates.expectedResolution =
      c.dates.expectedResolution ∧
    (c.addCommunication now m).dates.actualResolution =
      c.dates.actualResolution := by
  cases hf : c.dates.firstContact with
  | none =>
    simp only [Case.addCommunication, hf, Case.save]
    rw [Case.currentAmountHook_eq, Case.agingHook_eq]
    simp [hf]
  | some t0 =>
    simp only [Case.addCommunication, hf, Case.save]
    rw [Case.currentAmountHook_eq, Case.agingHook_eq]
    simp [hf]

/-- C10 counterexample: on `case10` (due 100 days before the call,
with a stale `aging.days = 0`), `addCommunication` changes
`aging.days` to 100 — a field outside the claimed frame of
communications, firstContact and lastContact. -/
theorem C10_counterexample :
    case10.aging.days = 0 ∧
    (case10.addCommunication 8640000000 comm10).aging.days = 100 ∧
    (case10.addCommunication 8640000000 comm10).aging.days ≠
      case10.aging.days := by
  refine ⟨rfl, ?_, ?_⟩ <;> decide

/-- C10 witness: `case10` has no first contact yet, and the call sets
it. -/
theorem C10_witness :
    case10.dates.firstContact = none ∧
    (case10.addCommunication 8640000000 comm10).dates.firstContact =
      some 8640000000 :=
  ⟨rfl, (C10_addCommunication_effects 8640000000 case10 comm10).2.2.1 rfl⟩
